import Mathlib

/-!
Verification of the p2p-path-manager decision layer.

The shared data model (`ActivePath`, `RelayHandle`, `DirectHandle`, `Config`,
`PathManager`) is embedded from `src/src/lib.rs`.  Rust `u64` fields carry no
arithmetic here (only comparisons), so they are modelled as `Nat`; Rust `f64`
configuration values are modelled as exact rationals `ℚ`, with the literals
`0.3` and `2.0` read as `3/10` and `2`.  `PeerId` is opaque in the source
(libp2p `PeerId`) and is modelled as `Nat`.

The modules `heuristics`, `punch`, `selection` and `metrics` are declared in
`lib.rs` (`pub mod heuristics;` etc.) but their source files are not present;
those components are modelled from the specification, as marked on each
definition.
-/

namespace P2PPM

/-- Opaque peer identifier (libp2p `PeerId` in the source). -/
abbrev PeerId := Nat

/-- Handle for a relayed connection (`RelayHandle` in `lib.rs`). -/
structure RelayHandle where
  peer_id : PeerId
  relay_peer_id : PeerId
  rtt_ms : Nat
deriving DecidableEq

/-- Handle for a direct connection (`DirectHandle` in `lib.rs`). -/
structure DirectHandle where
  peer_id : PeerId
  rtt_ms : Nat
  endpoint : String
deriving DecidableEq

/-- An active connection path to a peer (`ActivePath` in `lib.rs`). -/
inductive ActivePath where
  | Relay (handle : RelayHandle)
  | Direct (handle : DirectHandle)
deriving DecidableEq

/-- Configuration for the `PathManager` (`Config` in `lib.rs`). -/
structure Config where
  max_relay_rtt_ms : Nat
  min_punch_success_rate : ℚ
  punch_backoff_multiplier : ℚ
deriving DecidableEq

/-- `impl Default for Config` in `lib.rs`. -/
def Config.default : Config :=
  { max_relay_rtt_ms := 200
    min_punch_success_rate := 3 / 10
    punch_backoff_multiplier := 2 }

/-- Main path manager (`PathManager` in `lib.rs`): stores the configuration. -/
structure PathManager where
  config : Config
deriving DecidableEq

/-- `PathManager::new(config)` in `lib.rs`. -/
def PathManager.new (config : Config) : PathManager :=
  { config := config }

/-- `PathManager::with_defaults()` in `lib.rs`. -/
def PathManager.with_defaults : PathManager :=
  PathManager.new Config.default

/-- Modelled from the spec: the `metrics` module source is missing.
`PunchAttemptRecord` per §3: per-attempt outcome with peer, timestamp,
success flag and optional latency. -/
structure PunchAttemptRecord where
  peer_id : PeerId
  timestamp : Nat
  success : Bool
  latency_ms : Option Nat
deriving DecidableEq

/-- Modelled from the spec: the `metrics` module source is missing.
Success rate over a window of records; per §3 the rate is undefined
(`none`), not zero, when the sample count is zero. -/
def successRate (records : List PunchAttemptRecord) : Option ℚ :=
  if records.length = 0 then none
  else some ((((records.filter fun r => r.success).length : ℚ)) / (records.length : ℚ))

/-- Modelled from the spec: the `heuristics` module source is missing.
`MetricsSnapshot` per §3: global success rate, per-peer success rate
(each `none` when there is no data) and sample count. -/
structure MetricsSnapshot where
  per_peer_success_rate : Option ℚ
  global_success_rate : Option ℚ
  sample_count : Nat
deriving DecidableEq

/-- Modelled from the spec: the confidence threshold of §4.1, "e.g. ≥5
samples, before the success-rate gate applies". -/
def minConfidenceSamples : Nat := 5

/-- Modelled from the spec: the `heuristics` module source is missing.
`should_attempt_punch` per §4.1: false on a `Direct` path; false when the
relay RTT is at most `max_relay_rtt_ms`; false when the observed success
rate (per-peer, falling back to global) is below `min_punch_success_rate`
and the sample count has reached the confidence threshold; true otherwise. -/
def should_attempt_punch (peer_id : PeerId) (current_path : ActivePath)
    (metrics : MetricsSnapshot) (config : Config) : Bool :=
  match current_path with
  | .Direct _ => false
  | .Relay relay =>
    if relay.rtt_ms ≤ config.max_relay_rtt_ms then
      false
    else
      match metrics.per_peer_success_rate.orElse (fun _ => metrics.global_success_rate) with
      | none => true
      | some rate =>
        if rate < config.min_punch_success_rate ∧ minConfidenceSamples ≤ metrics.sample_count
        then false
        else true

/-- Modelled from the spec: the `punch` module source is missing.
`PeerPunchState` per §3: attempt count since last success, current backoff
delay, next-eligible-attempt timestamp, in-flight flag.  Times and delays
are rationals. -/
structure PeerPunchState where
  attempts_since_success : Nat
  current_backoff_delay : ℚ
  next_eligible_attempt : ℚ
  in_flight : Bool
deriving DecidableEq

/-- Modelled from the spec: the `punch` module source is missing.
`InFlight → Failed` per §4.2: multiply the backoff delay by
`punch_backoff_multiplier`, capped at an implementation-defined maximum
`cap`, and set the next-eligible timestamp to `now` plus the new delay. -/
def record_failure (config : Config) (cap now : ℚ) (st : PeerPunchState) : PeerPunchState :=
  let delay := min (st.current_backoff_delay * config.punch_backoff_multiplier) cap
  { st with
    attempts_since_success := st.attempts_since_success + 1
    current_backoff_delay := delay
    next_eligible_attempt := now + delay
    in_flight := false }

/-- Modelled from the spec: the `punch` module source is missing.
`InFlight → Succeeded` per §4.2: reset the backoff delay to the baseline. -/
def record_success (baseline : ℚ) (st : PeerPunchState) : PeerPunchState :=
  { st with
    attempts_since_success := 0
    current_backoff_delay := baseline
    in_flight := false }

/-- Modelled from the spec: the `selection` module source is missing.
Path Selection states per §4.3: `Relayed`, `Direct` (retaining the relay
handle for fallback, per Scenario E) and terminal `Disconnected`. -/
inductive PathState where
  | Relayed (relay : RelayHandle)
  | Direct (direct : DirectHandle) (retained_relay : Option RelayHandle)
  | Disconnected
deriving DecidableEq

/-- Modelled from the spec: the `selection` module source is missing.
`Relayed → Direct` per §4.3 on a `Succeeded` punch outcome; the relay
handle is retained.  Other states are defensive no-ops per §7. -/
def on_punch_succeeded (direct : DirectHandle) : PathState → PathState
  | .Relayed relay => .Direct direct (some relay)
  | s => s

/-- Modelled from the spec: the `selection` module source is missing.
`Direct → Relayed` per §4.3 on direct-path loss: fall back to the retained
relay handle when one is available, otherwise the peer is unreachable.
Other states are defensive no-ops per §7. -/
def on_direct_path_lost : PathState → PathState
  | .Direct _ (some relay) => .Relayed relay
  | .Direct _ none => .Disconnected
  | s => s

/-- C1: the default configuration has exactly `max_relay_rtt_ms = 200`,
`min_punch_success_rate = 0.3` and `punch_backoff_multiplier = 2.0`. -/
theorem config_default_exact :
    Config.default.max_relay_rtt_ms = 200 ∧
    Config.default.min_punch_success_rate = 3 / 10 ∧
    Config.default.punch_backoff_multiplier = 2 := by
  refine ⟨rfl, rfl, rfl⟩

/-- C2: `PathManager.with_defaults` equals `PathManager.new Config.default`;
the two construction paths store identical configuration. -/
theorem with_defaults_eq_new_default :
    PathManager.with_defaults = PathManager.new Config.default ∧
    PathManager.with_defaults.config = (PathManager.new Config.default).config := by
  exact ⟨rfl, rfl⟩

/-- C3: `should_attempt_punch` returns false on every `Direct` path, for
every peer, metrics snapshot and configuration. -/
theorem punch_false_on_direct (peer : PeerId) (d : DirectHandle)
    (metrics : MetricsSnapshot) (config : Config) :
    should_attempt_punch peer (.Direct d) metrics config = false := by
  rfl

/-- C4: `should_attempt_punch` returns false on a relay path whose RTT is at
most `max_relay_rtt_ms`, regardless of peer and metrics. -/
theorem punch_false_on_fast_relay (peer : PeerId) (relay : RelayHandle)
    (metrics : MetricsSnapshot) (config : Config)
    (h : relay.rtt_ms ≤ config.max_relay_rtt_ms) :
    should_attempt_punch peer (.Relay relay) metrics config = false := by
  simp [should_attempt_punch, h]

/-- C4 witness: with the default threshold 200, a relay RTT of 150 yields
false. -/
theorem punch_false_on_fast_relay_witness :
    (RelayHandle.mk 1 2 150).rtt_ms ≤ Config.default.max_relay_rtt_ms ∧
    should_attempt_punch 1 (.Relay (RelayHandle.mk 1 2 150))
      (MetricsSnapshot.mk none none 0) Config.default = false :=
  ⟨by decide,
   punch_false_on_fast_relay 1 (RelayHandle.mk 1 2 150)
     (MetricsSnapshot.mk none none 0) Config.default (by decide)⟩

/-- C5: cold start — with sample count zero, a relay path whose RTT exceeds
`max_relay_rtt_ms` is always eligible: the success-rate gate never
suppresses a peer with no data. -/
theorem punch_true_on_cold_start (peer : PeerId) (relay : RelayHandle)
    (metrics : MetricsSnapshot) (config : Config)
    (hzero : metrics.sample_count = 0)
    (hrtt : config.max_relay_rtt_ms < relay.rtt_ms) :
    should_attempt_punch peer (.Relay relay) metrics config = true := by
  have hnotle : ¬ relay.rtt_ms ≤ config.max_relay_rtt_ms := not_le.mpr hrtt
  have hcount : ¬ minConfidenceSamples ≤ metrics.sample_count := by
    rw [hzero]; decide
  simp only [should_attempt_punch]
  rw [if_neg hnotle]
  cases hr : metrics.per_peer_success_rate.orElse (fun _ => metrics.global_success_rate) with
  | none => rfl
  | some rate =>
    simp only
    rw [if_neg]
    intro hand
    exact hcount hand.2

/-- C5 witness: default config, relay RTT 250, zero prior attempts yields
true. -/
theorem punch_true_on_cold_start_witness :
    (MetricsSnapshot.mk none none 0).sample_count = 0 ∧
    Config.default.max_relay_rtt_ms < (RelayHandle.mk 1 2 250).rtt_ms ∧
    should_attempt_punch 1 (.Relay (RelayHandle.mk 1 2 250))
      (MetricsSnapshot.mk none none 0) Config.default = true :=
  ⟨rfl, by decide,
   punch_true_on_cold_start 1 (RelayHandle.mk 1 2 250)
     (MetricsSnapshot.mk none none 0) Config.default rfl (by decide)⟩

/-- C6: when the observed success rate (per-peer, or global when no
peer-level data exists) is below `min_punch_success_rate` and the sample
count has reached the confidence threshold, `should_attempt_punch` returns
false for every path. -/
theorem punch_false_on_low_success_rate (peer : PeerId) (path : ActivePath)
    (metrics : MetricsSnapshot) (config : Config) (rate : ℚ)
    (hrate : metrics.per_peer_success_rate.orElse
      (fun _ => metrics.global_success_rate) = some rate)
    (hlow : rate < config.min_punch_success_rate)
    (hcount : minConfidenceSamples ≤ metrics.sample_count) :
    should_attempt_punch peer path metrics config = false := by
  cases path with
  | Direct d => rfl
  | Relay relay =>
    simp only [should_attempt_punch]
    by_cases hle : relay.rtt_ms ≤ config.max_relay_rtt_ms
    · rw [if_pos hle]
    · rw [if_neg hle, hrate]
      simp only
      rw [if_pos ⟨hlow, hcount⟩]

/-- C6 witness: 10 prior attempts with 1 success (rate 1/10, below the 3/10
default floor) on a degraded relay path yields false. -/
theorem punch_false_on_low_success_rate_witness :
    (MetricsSnapshot.mk (some (1 / 10)) none 10).per_peer_success_rate.orElse
      (fun _ => (MetricsSnapshot.mk (some (1 / 10)) none 10).global_success_rate)
        = some (1 / 10) ∧
    (1 / 10 : ℚ) < Config.default.min_punch_success_rate ∧
    minConfidenceSamples ≤ (MetricsSnapshot.mk (some (1 / 10)) none 10).sample_count ∧
    should_attempt_punch 1 (.Relay (RelayHandle.mk 1 2 250))
      (MetricsSnapshot.mk (some (1 / 10)) none 10) Config.default = false :=
  ⟨rfl, by norm_num [Config.default], by decide,
   punch_false_on_low_success_rate 1 (.Relay (RelayHandle.mk 1 2 250))
     (MetricsSnapshot.mk (some (1 / 10)) none 10) Config.default (1 / 10)
     rfl (by norm_num [Config.default]) (by decide)⟩

/-- C7: backoff — a failed attempt multiplies the current delay by
`punch_backoff_multiplier` capped at `cap`, which is non-decreasing when
the multiplier is at least 1 and the delay is a nonnegative value within
the cap; a success resets the delay to the baseline; and with multiplier 2
and enough cap headroom, two consecutive failures take the delay from `d`
to `2·d` and then `4·d` (the attempts run at delays `d`, `2·d`, `4·d`). -/
theorem backoff_monotone_and_resets (config : Config) (cap now : ℚ)
    (st : PeerPunchState)
    (hm : 1 ≤ config.punch_backoff_multiplier)
    (hd : 0 ≤ st.current_backoff_delay)
    (hcap : st.current_backoff_delay ≤ cap) :
    ((record_failure config cap now st).current_backoff_delay =
        min (st.current_backoff_delay * config.punch_backoff_multiplier) cap ∧
      st.current_backoff_delay ≤ (record_failure config cap now st).current_backoff_delay ∧
      ∀ baseline : ℚ, (record_success baseline st).current_backoff_delay = baseline) ∧
    (config.punch_backoff_multiplier = 2 →
      4 * st.current_backoff_delay ≤ cap →
      (record_failure config cap now st).current_backoff_delay =
          2 * st.current_backoff_delay ∧
        (record_failure config cap now
            (record_failure config cap now st)).current_backoff_delay =
          4 * st.current_backoff_delay) := by
  have hgrow : st.current_backoff_delay ≤
      st.current_backoff_delay * config.punch_backoff_multiplier := by
    nlinarith
  constructor
  · refine ⟨rfl, ?_, fun baseline => rfl⟩
    exact le_min hgrow hcap
  · intro h2 hroom
    have h2d : 2 * st.current_backoff_delay ≤ cap := by nlinarith
    have hfst : (record_failure config cap now st).current_backoff_delay =
        2 * st.current_backoff_delay := by
      show min (st.current_backoff_delay * config.punch_backoff_multiplier) cap =
        2 * st.current_backoff_delay
      rw [h2, mul_comm]
      exact min_eq_left h2d
    refine ⟨hfst, ?_⟩
    show min ((record_failure config cap now st).current_backoff_delay *
        config.punch_backoff_multiplier) cap = 4 * st.current_backoff_delay
    rw [hfst, h2]
    have : 2 * st.current_backoff_delay * 2 = 4 * st.current_backoff_delay := by ring
    rw [this]
    exact min_eq_left hroom

/-- C7 witness: default multiplier 2, baseline delay 5, cap 100 — the two
failures produce delays 10 and 20, and a success resets to baseline 5. -/
theorem backoff_monotone_and_resets_witness :
    (1 ≤ Config.default.punch_backoff_multiplier ∧
      0 ≤ (PeerPunchState.mk 0 5 0 false).current_backoff_delay ∧
      (PeerPunchState.mk 0 5 0 false).current_backoff_delay ≤ 100) ∧
    ((record_failure Config.default 100 0
        (PeerPunchState.mk 0 5 0 false)).current_backoff_delay =
          min ((PeerPunchState.mk 0 5 0 false).current_backoff_delay *
            Config.default.punch_backoff_multiplier) 100 ∧
      (PeerPunchState.mk 0 5 0 false).current_backoff_delay ≤
        (record_failure Config.default 100 0
          (PeerPunchState.mk 0 5 0 false)).current_backoff_delay ∧
      ∀ baseline : ℚ, (record_success baseline
        (PeerPunchState.mk 0 5 0 false)).current_backoff_delay = baseline) ∧
    (Config.default.punch_backoff_multiplier = 2 →
      4 * (PeerPunchState.mk 0 5 0 false).current_backoff_delay ≤ 100 →
      (record_failure Config.default 100 0
          (PeerPunchState.mk 0 5 0 false)).current_backoff_delay =
        2 * (PeerPunchState.mk 0 5 0 false).current_backoff_delay ∧
      (record_failure Config.default 100 0 (record_failure Config.default 100 0
          (PeerPunchState.mk 0 5 0 false))).current_backoff_delay =
        4 * (PeerPunchState.mk 0 5 0 false).current_backoff_delay) :=
  ⟨⟨by norm_num [Config.default], by norm_num, by norm_num⟩,
   backoff_monotone_and_resets Config.default 100 0
     (PeerPunchState.mk 0 5 0 false)
     (by norm_num [Config.default]) (by norm_num) (by norm_num)⟩

/-- C8: fallback — from a `Direct` state that retains a relay handle, a
direct-path-lost event transitions to `Relayed` with that same handle,
never to `Disconnected`; in particular a punch success from `Relayed`
followed by direct-path loss returns to the original `Relayed` state. -/
theorem direct_loss_falls_back_to_relay (d : DirectHandle) (relay : RelayHandle) :
    on_direct_path_lost (.Direct d (some relay)) = .Relayed relay ∧
    on_direct_path_lost (.Direct d (some relay)) ≠ .Disconnected ∧
    on_direct_path_lost (on_punch_succeeded d (.Relayed relay)) = .Relayed relay := by
  refine ⟨rfl, ?_, rfl⟩
  intro h
  exact PathState.noConfusion h

/-- C9: the success rate over a window of punch records is `none` exactly
when the sample count (window length) is zero — absent data is represented
as absent, never as a zero rate. -/
theorem success_rate_none_iff_no_samples (records : List PunchAttemptRecord) :
    successRate records = none ↔ records.length = 0 := by
  unfold successRate
  by_cases h : records.length = 0
  · simp [h]
  · simp [h]

/-- C10: `PathManager.new` is total and performs no validation — for every
configuration value, including degenerate ones, the stored configuration
equals the argument unchanged. -/
theorem new_stores_config_unchanged (config : Config) :
    PathManager.new config = { config := config } ∧
    (PathManager.new config).config = config :=
  ⟨rfl, rfl⟩

end P2PPM
